import Mathlib

/-!
Verification of `pandas/core/groupby/base.py`: the kernel classification
registry (frozensets of operation names) and the grouped-view delegation
protocol (`ShallowMixin._shallow_copy`, `GotItemMixin._gotitem`).

Frozensets of strings are embedded as `List String`; set union (`|`) is
list append, and membership is list membership.
-/

namespace GroupbyBase

/-- `plotting_methods = frozenset(["plot", "hist"])`. -/
def plotting_methods : List String := ["plot", "hist"]

/-- `common_apply_allowlist` from the source: a frozenset literal
unioned with `plotting_methods`. -/
def common_apply_allowlist : List String :=
  [ "quantile", "fillna", "mad", "take", "idxmax", "idxmin", "tshift",
    "skew", "corr", "cov", "diff" ] ++ plotting_methods

/-- `series_apply_allowlist` from the source. -/
def series_apply_allowlist : List String :=
  (common_apply_allowlist ++
    ["nlargest", "nsmallest", "is_monotonic_increasing",
     "is_monotonic_decreasing"]) ++ ["dtype", "unique"]

/-- `dataframe_apply_allowlist` from the source. -/
def dataframe_apply_allowlist : List String :=
  common_apply_allowlist ++ ["dtypes", "corrwith"]

/-- `cythonized_kernels` from the source. -/
def cythonized_kernels : List String :=
  ["cumprod", "cumsum", "shift", "cummin", "cummax"]

/-- `cython_cast_blocklist` from the source. -/
def cython_cast_blocklist : List String :=
  ["rank", "count", "size", "idxmin", "idxmax"]

/-- `reduction_kernels` from the source: aggregation/reduction functions
mapping each group to a single value. -/
def reduction_kernels : List String :=
  [ "all", "any", "corrwith", "count", "first", "idxmax", "idxmin",
    "last", "mad", "max", "mean", "median", "min", "ngroup", "nth",
    "nunique", "prod", "quantile", "sem", "size", "skew", "std",
    "sum", "var" ]

/-- `transformation_kernels` from the source: per-group shape-preserving
functions. -/
def transformation_kernels : List String :=
  [ "backfill", "bfill", "cumcount", "cummax", "cummin", "cumprod",
    "cumsum", "diff", "ffill", "fillna", "pad", "pct_change", "rank",
    "shift", "tshift" ]

/-- `groupby_other_methods` from the source: public Grouper methods in
neither of the two kernel lists. -/
def groupby_other_methods : List String :=
  [ "agg", "aggregate", "apply", "boxplot", "corr", "cov", "describe",
    "dtypes", "expanding", "ewm", "filter", "get_group", "groups",
    "head", "hist", "indices", "ndim", "ngroups", "ohlc", "pipe",
    "plot", "resample", "rolling", "tail", "take", "transform",
    "sample" ]

/-- `transform_kernel_allowlist = reduction_kernels | transformation_kernels`. -/
def transform_kernel_allowlist : List String :=
  reduction_kernels ++ transformation_kernels

/-! ## ShallowMixin

`_shallow_copy(self, obj, **kwargs)`: if `obj` is an instance of
`self._constructor` it is unwrapped to `obj.obj`; then every declared
attribute name missing from `kwargs` is filled in from `self`; finally
`self._constructor(obj, **kwargs)` is returned.  A `**kwargs` dict is
embedded as a partial map `String → Option α`; the data parameter `δ`
and attribute-value type `α` are abstract. -/

/-- The `obj` argument of `_shallow_copy`: either raw data, or an
instance of `self._constructor` (a grouped view) whose `.obj` field
holds the underlying data. -/
inductive ObjArg (δ : Type u)
  | raw (d : δ)
  | constructorInst (underlying : δ)

/-- A `ShallowMixin` view: underlying data `obj`, the class-level
`_attributes` name list, and `getattr` giving the current value of each
attribute on the instance. -/
structure ShallowView (δ : Type u) (α : Type v) where
  obj : δ
  attributes : List String
  getattr : String → α

/-- The result of `self._constructor(obj, **kwargs)`: the (possibly
unwrapped) data object and the final keyword-argument dict. -/
structure ShallowCopyResult (δ : Type u) (α : Type v) where
  obj : δ
  kwargs : String → Option α

/-- `isinstance(obj, self._constructor)` unwrapping: a constructor
instance yields its `.obj`, raw data is passed through. -/
def unwrapObjArg : ObjArg δ → δ
  | .raw d => d
  | .constructorInst d => d

/-- `ShallowMixin._shallow_copy`: unwrap `obj` if it is a constructor
instance, then for each `attr` in `self._attributes` not already in
`kwargs`, set `kwargs[attr] = getattr(self, attr)`, and construct the
result. -/
def shallow_copy (self : ShallowView δ α) (obj : ObjArg δ)
    (kwargs : String → Option α) : ShallowCopyResult δ α :=
  { obj := unwrapObjArg obj
    kwargs := fun attr =>
      match kwargs attr with
      | some v => some v
      | none =>
          if attr ∈ self.attributes then some (self.getattr attr)
          else none }

/-! ## GotItemMixin

`_gotitem(self, key, ndim, subset=None)`: default `subset` to
`self.obj`; snapshot `kwargs = {attr: getattr(self, attr) for attr in
self._attributes}`; try `groupby = self._groupby[key]`, on `IndexError`
fall back to `groupby = self._groupby` (any other exception
propagates); build `type(self)(subset, groupby=groupby, parent=self,
**kwargs)`; reset its cache; set `self._selection = key` when
`subset.ndim == 2 and (is_scalar(key) and key in subset or
is_list_like(key))`. -/

/-- The underlying data subset, as far as `_gotitem` inspects it: its
dimensionality and its column set (used by `key in subset`). -/
structure Subset where
  ndim : Nat
  columns : List String

/-- A `_gotitem` key: a single scalar identifier or a list-like
sequence of identifiers. -/
inductive GKey
  | scalar (s : String)
  | seq (ss : List String)

/-- `is_scalar(key)`. -/
def is_scalar : GKey → Bool
  | .scalar _ => true
  | .seq _ => false

/-- `is_list_like(key)`. -/
def is_list_like : GKey → Bool
  | .scalar _ => false
  | .seq _ => true

/-- `key in subset`: for a two-dimensional container this is column
membership.  It is only reached for scalar keys (short-circuit after
`is_scalar(key)`); a sequence is unhashable and not contained. -/
def key_in : GKey → Subset → Bool
  | .scalar x, s => s.columns.contains x
  | .seq _, _ => false

/-- An exception raised by `self._groupby[key]`: `IndexError`, which
`_gotitem` catches, or any other exception, which propagates. -/
inductive GroupbyErr
  | indexError
  | other (msg : String)

/-- A `GotItemMixin` view: underlying data `obj`, the declared
`_attributes` names, `getattr` for their current values, and the
`_groupby` object (abstract type `γ`). -/
structure GotItemView (γ : Type u) (α : Type v) where
  obj : Subset
  attributes : List String
  getattr : String → α
  groupby : γ

/-- The derived view `type(self)(subset, groupby=groupby, parent=self,
**kwargs)` after `_reset_cache()` and the optional `_selection`
assignment. -/
structure DerivedView (γ : Type u) (α : Type v) where
  obj : Subset
  groupby : γ
  parent : GotItemView γ α
  kwargs : List (String × α)
  selection : Option GKey

/-- The `try/except IndexError` block around `self._groupby[key]`:
an `IndexError` is converted into reuse of the parent grouping, any
other exception propagates. -/
def resolveGroupby (gbIndex : γ → GKey → Except GroupbyErr γ)
    (g : γ) (key : GKey) : Except GroupbyErr γ :=
  match gbIndex g key with
  | .ok g2 => .ok g2
  | .error .indexError => .ok g
  | .error e => .error e

/-- The `_selection` assignment guard:
`subset.ndim == 2 and (is_scalar(key) and key in subset or
is_list_like(key))`. -/
def gotitemSelection (subset : Subset) (key : GKey) : Option GKey :=
  if subset.ndim == 2 &&
      ((is_scalar key && key_in key subset) || is_list_like key)
  then some key else none

/-- `GotItemMixin._gotitem`.  The grouping collaborator's indexing
operation `gbIndex` is a parameter: the grouping type `γ` is external
to this module.  The `ndim` parameter mirrors the source signature and,
as in the source, is never consulted. -/
def gotitem (gbIndex : γ → GKey → Except GroupbyErr γ)
    (self : GotItemView γ α) (key : GKey) (ndim : Nat)
    (subsetArg : Option Subset) : Except GroupbyErr (DerivedView γ α) :=
  let subset := subsetArg.getD self.obj
  let kwargs := self.attributes.map fun attr => (attr, self.getattr attr)
  match resolveGroupby gbIndex self.groupby key with
  | .error e => .error e
  | .ok groupby =>
      .ok { obj := subset
            groupby := groupby
            parent := self
            kwargs := kwargs
            selection := gotitemSelection subset key }

/-- The selection-marker condition as the spec words it (claim C5):
the data is two-dimensional and the key is a single scalar contained
in the column set or a sequence of identifiers each contained in the
column set.  Stated for comparison with `gotitemSelection`, which is
the source's condition. -/
def specSelectionCond (subset : Subset) (key : GKey) : Bool :=
  subset.ndim == 2 &&
    (match key with
     | .scalar s => subset.columns.contains s
     | .seq ss => ss.all subset.columns.contains)

end GroupbyBase

open GroupbyBase

/-- C1: the reduction table and the transformation table are disjoint:
every operation name in `reduction_kernels` is absent from
`transformation_kernels`. -/
theorem reduction_transformation_disjoint :
    ∀ n : String, n ∈ reduction_kernels → n ∉ transformation_kernels := by
  intro n hn
  fin_cases hn <;> decide

/-- Witness for C1 at the concrete name `"sum"`. -/
theorem reduction_transformation_disjoint_witness :
    ("sum" : String) ∈ reduction_kernels ∧
      ("sum" : String) ∉ transformation_kernels :=
  ⟨by decide, reduction_transformation_disjoint "sum" (by decide)⟩

/-- C2: a name is in `transform_kernel_allowlist` iff it is in
`reduction_kernels` or in `transformation_kernels`: the allowlist is
exactly the union of the two tables. -/
theorem transform_kernel_allowlist_eq_union :
    ∀ n : String, n ∈ transform_kernel_allowlist ↔
      n ∈ reduction_kernels ∨ n ∈ transformation_kernels := by
  intro n
  exact List.mem_append

/-- C6: `"plot"` and `"hist"` are in both apply allowlists and in
neither kernel table. -/
theorem plotting_methods_in_allowlists_not_kernels :
    ("plot" : String) ∈ series_apply_allowlist ∧
      ("hist" : String) ∈ series_apply_allowlist ∧
      ("plot" : String) ∈ dataframe_apply_allowlist ∧
      ("hist" : String) ∈ dataframe_apply_allowlist ∧
      ("plot" : String) ∉ reduction_kernels ∧
      ("hist" : String) ∉ reduction_kernels ∧
      ("plot" : String) ∉ transformation_kernels ∧
      ("hist" : String) ∉ transformation_kernels := by
  decide

/-- C7: `"corr"` and `"cov"` are classified as neither reduction nor
transformation and are present in `groupby_other_methods`. -/
theorem corr_cov_other_only :
    ("corr" : String) ∉ reduction_kernels ∧
      ("corr" : String) ∉ transformation_kernels ∧
      ("corr" : String) ∈ groupby_other_methods ∧
      ("cov" : String) ∉ reduction_kernels ∧
      ("cov" : String) ∉ transformation_kernels ∧
      ("cov" : String) ∈ groupby_other_methods := by
  decide

/-- C8: `"rank"` is a transformation kernel and cast-blocklisted, but is
not a cythonized kernel. -/
theorem rank_classification :
    ("rank" : String) ∈ transformation_kernels ∧
      ("rank" : String) ∈ cython_cast_blocklist ∧
      ("rank" : String) ∉ cythonized_kernels := by
  decide

/-- C9: every cythonized kernel name is also a transformation kernel
name: `cythonized_kernels ⊆ transformation_kernels`. -/
theorem cythonized_subset_transformation :
    ∀ n : String, n ∈ cythonized_kernels → n ∈ transformation_kernels := by
  intro n hn
  fin_cases hn <;> decide

/-- Witness for C9 at the concrete name `"shift"`. -/
theorem cythonized_subset_transformation_witness :
    ("shift" : String) ∈ cythonized_kernels ∧
      ("shift" : String) ∈ transformation_kernels :=
  ⟨by decide, cythonized_subset_transformation "shift" (by decide)⟩

/-- C3: `_shallow_copy` unwraps a constructor-instance argument to its
underlying `.obj`, and the resulting keyword-argument configuration
maps every declared attribute to the supplied override when present
and to the source view's current value otherwise; in particular with
no overrides every declared attribute equals the source view's value. -/
theorem shallow_copy_spec {δ : Type u} {α : Type v}
    (self : ShallowView δ α) (obj : ObjArg δ)
    (kwargs : String → Option α) :
    (∀ d : δ, (shallow_copy self (ObjArg.constructorInst d) kwargs).obj = d) ∧
    (∀ attr, attr ∈ self.attributes →
      (shallow_copy self obj kwargs).kwargs attr
        = some ((kwargs attr).getD (self.getattr attr))) ∧
    (∀ attr, attr ∈ self.attributes →
      (shallow_copy self obj (fun _ => none)).kwargs attr
        = some (self.getattr attr)) := by
  refine ⟨fun d => rfl, fun attr h => ?_, fun attr h => ?_⟩
  · simp only [shallow_copy]
    cases hk : kwargs attr with
    | some v => simp [hk]
    | none => simp [hk, h]
  · simp [shallow_copy, h]

/-- Witness for C3: a one-attribute view, raw replacement data, no
overrides; the declared attribute keeps the source value. -/
theorem shallow_copy_spec_witness :
    (shallow_copy (⟨0, ["a"], fun _ => 7⟩ : ShallowView Nat Nat)
        (ObjArg.raw 1) (fun _ => none)).kwargs "a" = some 7 :=
  (shallow_copy_spec (⟨0, ["a"], fun _ => 7⟩ : ShallowView Nat Nat)
      (ObjArg.raw 1) (fun _ => none)).2.2 "a" (by decide)

/-- C4: in `_gotitem`, an `IndexError` from `self._groupby[key]` is
caught and the derived view reuses the parent grouping, with no error
surfaced; any other exception from the grouping indexing propagates
unchanged; and a successful indexing installs the narrowed grouping. -/
theorem gotitem_index_error_handling {γ : Type u} {α : Type v}
    (gbIndex : γ → GKey → Except GroupbyErr γ) (self : GotItemView γ α)
    (key : GKey) (ndim : Nat) (subsetArg : Option Subset) :
    (gbIndex self.groupby key = .error .indexError →
      (gotitem gbIndex self key ndim subsetArg).map DerivedView.groupby
        = .ok self.groupby) ∧
    (∀ msg, gbIndex self.groupby key = .error (.other msg) →
      gotitem gbIndex self key ndim subsetArg = .error (.other msg)) ∧
    (∀ g2, gbIndex self.groupby key = .ok g2 →
      (gotitem gbIndex self key ndim subsetArg).map DerivedView.groupby
        = .ok g2) := by
  refine ⟨fun h => ?_, fun msg h => ?_, fun g2 h => ?_⟩ <;>
    simp [gotitem, resolveGroupby, h, Except.map]

/-- Witness for C4: a grouping whose indexing always raises
`IndexError`; the derived view keeps the parent grouping `5`. -/
theorem gotitem_index_error_handling_witness :
    (gotitem (fun _ _ => Except.error GroupbyErr.indexError)
        (⟨⟨1, []⟩, [], fun _ => 0, 5⟩ : GotItemView Nat Nat)
        (GKey.scalar "x") 1 none).map DerivedView.groupby
      = Except.ok 5 :=
  (gotitem_index_error_handling (fun _ _ => Except.error GroupbyErr.indexError)
      (⟨⟨1, []⟩, [], fun _ => 0, 5⟩ : GotItemView Nat Nat)
      (GKey.scalar "x") 1 none).1 rfl

/-- The source's selection guard succeeds exactly when the subset is
two-dimensional and the key is a scalar contained in the columns or
any list-like key. -/
theorem gotitemSelection_eq_some_iff (subset : Subset) (key : GKey) :
    gotitemSelection subset key = some key ↔
      subset.ndim = 2 ∧
        ((∃ s, key = GKey.scalar s ∧ s ∈ subset.columns) ∨
         (∃ ss, key = GKey.seq ss)) := by
  cases key with
  | scalar s =>
      simp [gotitemSelection, is_scalar, is_list_like, key_in]
  | seq ss =>
      simp [gotitemSelection, is_scalar, is_list_like, key_in]

/-- C5 counterexample: a two-dimensional subset with columns `["a"]`
and the list-like key `["b"]`, whose element is not a column.  The
code sets the selection marker, but the claim's condition (every
identifier of the sequence contained in the column set) is false. -/
theorem gotitem_selection_claim_counterexample :
    (gotitem (fun _ _ => Except.ok ())
        (⟨⟨2, ["a"]⟩, [], fun _ => (), ()⟩ : GotItemView Unit Unit)
        (GKey.seq ["b"]) 2 none).map DerivedView.selection
      = Except.ok (some (GKey.seq ["b"]))
    ∧ specSelectionCond ⟨2, ["a"]⟩ (GKey.seq ["b"]) = false := by
  exact ⟨rfl, rfl⟩

/-- C5 amended: when `_gotitem` returns a view, its selection marker is
`key` exactly when the subset is two-dimensional and `key` is a single
scalar contained in the subset's column set or any list-like sequence
(with no containment requirement on the sequence's elements); in every
other case the marker is unset. -/
theorem gotitem_selection_amended {γ : Type u} {α : Type v}
    (gbIndex : γ → GKey → Except GroupbyErr γ) (self : GotItemView γ α)
    (key : GKey) (ndim : Nat) (subsetArg : Option Subset)
    (v : DerivedView γ α)
    (h : gotitem gbIndex self key ndim subsetArg = .ok v) :
    v.selection = some key ↔
      (subsetArg.getD self.obj).ndim = 2 ∧
        ((∃ s, key = GKey.scalar s ∧
            s ∈ (subsetArg.getD self.obj).columns) ∨
         (∃ ss, key = GKey.seq ss)) := by
  have hv : v.selection = gotitemSelection (subsetArg.getD self.obj) key := by
    simp only [gotitem] at h
    cases hr : resolveGroupby gbIndex self.groupby key with
    | error e => rw [hr] at h; exact absurd h (by simp)
    | ok g2 =>
        rw [hr] at h
        simp only [Except.ok.injEq] at h
        rw [← h]
  rw [hv]
  exact gotitemSelection_eq_some_iff _ _

/-- Witness for C5 amended: a scalar key that is a column of a
two-dimensional subset; the marker is set. -/
theorem gotitem_selection_amended_witness :
    ({ obj := ⟨2, ["a"]⟩, groupby := (),
       parent := (⟨⟨2, ["a"]⟩, [], fun _ => (), ()⟩ : GotItemView Unit Unit),
       kwargs := [],
       selection := some (GKey.scalar "a") } :
        DerivedView Unit Unit).selection = some (GKey.scalar "a") :=
  (gotitem_selection_amended (fun _ _ => Except.ok ())
      (⟨⟨2, ["a"]⟩, [], fun _ => (), ()⟩ : GotItemView Unit Unit)
      (GKey.scalar "a") 1 none _ rfl).mpr
    ⟨rfl, Or.inl ⟨"a", rfl, by decide⟩⟩

/-- C10: `_gotitem` never consults its `ndim` argument: results for
any two requested dimensionalities coincide, all other inputs equal. -/
theorem gotitem_ndim_independent {γ : Type u} {α : Type v}
    (gbIndex : γ → GKey → Except GroupbyErr γ) (self : GotItemView γ α)
    (key : GKey) (subsetArg : Option Subset) (n1 n2 : Nat) :
    gotitem gbIndex self key n1 subsetArg
      = gotitem gbIndex self key n2 subsetArg := rfl
